import Mathlib

/-!
Shallow embedding of the FISCO-BCOS transaction core
(src/libethcore/Transaction.h): the transaction record, its equality,
its setters and cache-invalidation logic, its signature predicates, the
node propagation marker, and the versioned codec together with the
signature lifecycle.  Functions whose bodies live in the header are
translated from that header; functions only declared there
(encode, decode, hash, sender, safeSender) are modelled from the
natural-language specification, as marked in their doc comments.
-/

namespace FBC

/-- Unsigned 256-bit integers of the source (dev::u256).  The operations
embedded here store and compare u256 values but never perform wrapping
arithmetic on them, so plain naturals are a faithful carrier. -/
abbrev u256 := Nat

/-- 160-bit account addresses (dev::Address = h160); the default
constructed Address() is the zero address. -/
abbrev Address := Nat

/-- 256-bit digests (dev::h256); h256(0) is the zero digest. -/
abbrev Digest := Nat

/-- 512-bit node identifiers (dev::h512). -/
abbrev PeerId := Nat

/-- Byte sequences (dev::bytes). -/
abbrev Bytes := List Nat

/-- enum IncludeSignature of the header. -/
inductive IncludeSignature
| WithoutSignature
| WithSignature
deriving DecidableEq, Repr

/-- enum class CheckTransaction of the header. -/
inductive CheckTransaction
| None
| Cheap
| Everything
deriving DecidableEq, Repr

/-- Transaction::Type of the header: NullTransaction, ContractCreation,
MessageCall. -/
inductive TxType
| NullTransaction
| ContractCreation
| MessageCall
deriving DecidableEq, Repr

/-- A recoverable signature (crypto::Signature), held through a shared
pointer in the source; exposes the scalars v, r, s. -/
structure Signature where
  v : u256
  r : u256
  s : u256
deriving DecidableEq, Repr

/-- One entry of the ordered RLP field list: either an unsigned integer
field or a byte-string field.  The codec is embedded at field-list
granularity; the RLP byte-level framing (length prefixes) is a bijection
on such lists and is abstracted away. -/
inductive FieldVal
| nat : Nat → FieldVal
| bs : Bytes → FieldVal
deriving DecidableEq, Repr

/-- The error conditions of the error taxonomy that the embedded
operations can surface. -/
inductive TxError
| TransactionIsUnsigned
| RecoveryFailure
| DecodeError
| EncodeWithoutSignature
deriving DecidableEq, Repr

/-- struct NodeTransactionMarker: the set of nodes known to contain the
transaction (std::set of h512 guarded by a shared mutex; the lock only
serialises access and does not affect the value semantics embedded
here). -/
structure NodeTransactionMarker where
  m_nodeListWithTheTransaction : Finset PeerId
deriving DecidableEq

/-- NodeTransactionMarker() = default: the set starts empty. -/
def NodeTransactionMarker.init : NodeTransactionMarker :=
  { m_nodeListWithTheTransaction := (∅ : Finset PeerId) }

/-- NodeTransactionMarker::appendNodeContainsTransaction. -/
def NodeTransactionMarker.appendNodeContainsTransaction
    (m : NodeTransactionMarker) (node : PeerId) : NodeTransactionMarker :=
  { m with m_nodeListWithTheTransaction :=
      insert node m.m_nodeListWithTheTransaction }

/-- NodeTransactionMarker::appendNodeListContainTransaction: inserts every
node of the given list. -/
def NodeTransactionMarker.appendNodeListContainTransaction
    (m : NodeTransactionMarker) (nodeList : List PeerId) : NodeTransactionMarker :=
  nodeList.foldl NodeTransactionMarker.appendNodeContainsTransaction m

/-- NodeTransactionMarker::isTheNodeContainsTransaction: membership test
(count as bool). -/
def NodeTransactionMarker.isTheNodeContainsTransaction
    (m : NodeTransactionMarker) (node : PeerId) : Bool :=
  node ∈ m.m_nodeListWithTheTransaction

/-- NodeTransactionMarker::isKnownBySomeone: negation of empty(). -/
def NodeTransactionMarker.isKnownBySomeone (m : NodeTransactionMarker) : Bool :=
  !(m.m_nodeListWithTheTransaction = (∅ : Finset PeerId))

/-- NodeTransactionMarker::clear. -/
def NodeTransactionMarker.clear (m : NodeTransactionMarker) : NodeTransactionMarker :=
  { m with m_nodeListWithTheTransaction := (∅ : Finset PeerId) }

/-- class Transaction: the data members of the header.  The cached RLP
buffer m_rlpBuffer is carried at the same field-list granularity as the
codec; bytes() (the empty buffer) corresponds to the empty list.  The
RPC callback is an opaque handle never invoked by the core and carries
no observable state, so it is omitted. -/
structure Transaction where
  m_type : TxType
  m_nonce : u256
  m_value : u256
  m_receiveAddress : Address
  m_gasPrice : u256
  m_gas : u256
  m_data : Bytes
  m_vrs : Option Signature
  m_hashWith : Digest
  m_sender : Address
  m_blockLimit : u256
  m_importTime : u256
  m_rlpBuffer : List FieldVal
  m_chainId : u256
  m_groupId : u256
  m_extraData : Bytes
  m_rpcTx : Bool
  m_synced : Bool
  m_nodeTransactionMarker : NodeTransactionMarker
deriving DecidableEq

/-- Transaction() {}: the null transaction; every member takes its
default value (zero scalars, empty buffers, absent signature, empty
marker). -/
def Transaction.mkNull : Transaction :=
  { m_type := TxType.NullTransaction
    m_nonce := 0
    m_value := 0
    m_receiveAddress := 0
    m_gasPrice := 0
    m_gas := 0
    m_data := []
    m_vrs := none
    m_hashWith := 0
    m_sender := 0
    m_blockLimit := 0
    m_importTime := 0
    m_rlpBuffer := []
    m_chainId := 0
    m_groupId := 0
    m_extraData := []
    m_rpcTx := false
    m_synced := false
    m_nodeTransactionMarker := NodeTransactionMarker.init }

/-- The unsigned message-call constructor of the header. -/
def Transaction.mkMessageCall (value gasPrice gas : u256) (dest : Address)
    (data : Bytes) (nonce : u256) (chainId groupId : u256) : Transaction :=
  { Transaction.mkNull with
    m_type := TxType.MessageCall
    m_nonce := nonce
    m_value := value
    m_receiveAddress := dest
    m_gasPrice := gasPrice
    m_gas := gas
    m_data := data
    m_chainId := chainId
    m_groupId := groupId }

/-- The unsigned contract-creation constructor of the header. -/
def Transaction.mkContractCreation (value gasPrice gas : u256) (data : Bytes)
    (nonce : u256) (chainId groupId : u256) : Transaction :=
  { Transaction.mkNull with
    m_type := TxType.ContractCreation
    m_nonce := nonce
    m_value := value
    m_gasPrice := gasPrice
    m_gas := gas
    m_data := data
    m_chainId := chainId
    m_groupId := groupId }

/-- Transaction::operator==, line for line: same type, and when the type
is not ContractCreation also the same receive address, and the same
value and the same data. -/
def Transaction.beq (t c : Transaction) : Bool :=
  t.m_type == c.m_type
    && (t.m_type == TxType.ContractCreation
        || t.m_receiveAddress == c.m_receiveAddress)
    && t.m_value == c.m_value && t.m_data == c.m_data

/-- Transaction::clearSignature: resets the signature pointer and the
cached sender. -/
def Transaction.clearSignature (t : Transaction) : Transaction :=
  { t with m_vrs := none, m_sender := 0 }

/-- Transaction::setNonce: clears the signature, stores the nonce, zeroes
the cached hash and empties the cached RLP buffer. -/
def Transaction.setNonce (t : Transaction) (n : u256) : Transaction :=
  { t.clearSignature with m_nonce := n, m_hashWith := 0, m_rlpBuffer := [] }

/-- Transaction::setBlockLimit: clears the signature, stores the block
limit, zeroes the cached hash and empties the cached RLP buffer. -/
def Transaction.setBlockLimit (t : Transaction) (blockLimit : u256) : Transaction :=
  { t.clearSignature with
      m_blockLimit := blockLimit, m_hashWith := 0, m_rlpBuffer := [] }

/-- Transaction::setReceiveAddress: zeroes the cached hash, empties the
cached RLP buffer and stores the address; the signature is untouched. -/
def Transaction.setReceiveAddress (t : Transaction) (receiveAddr : Address) : Transaction :=
  { t with m_hashWith := 0, m_rlpBuffer := [], m_receiveAddress := receiveAddr }

/-- Transaction::setData: zeroes the cached hash, empties the cached RLP
buffer and stores the data; the signature is untouched. -/
def Transaction.setData (t : Transaction) (data : Bytes) : Transaction :=
  { t with m_hashWith := 0, m_rlpBuffer := [], m_data := data }

/-- Transaction::setChainId. -/
def Transaction.setChainId (t : Transaction) (chainId : u256) : Transaction :=
  { t with m_hashWith := 0, m_rlpBuffer := [], m_chainId := chainId }

/-- Transaction::setGroupId. -/
def Transaction.setGroupId (t : Transaction) (groupId : u256) : Transaction :=
  { t with m_hashWith := 0, m_rlpBuffer := [], m_groupId := groupId }

/-- Transaction::setType. -/
def Transaction.setType (t : Transaction) (ty : TxType) : Transaction :=
  { t with m_hashWith := 0, m_rlpBuffer := [], m_type := ty }

/-- Transaction::updateSignature: stores the (possibly null) signature
pointer, zeroes the cached hash, resets the cached sender and empties
the cached RLP buffer. -/
def Transaction.updateSignature (t : Transaction) (sig : Option Signature) : Transaction :=
  { t with m_vrs := sig, m_hashWith := 0, m_sender := 0, m_rlpBuffer := [] }

/-- Transaction::hasSignature: the signature pointer is non-null. -/
def Transaction.hasSignature (t : Transaction) : Bool :=
  t.m_vrs.isSome

/-- Transaction::isZeroSignature: both scalars are zero. -/
def Transaction.isZeroSignature (r s : u256) : Bool :=
  r == 0 && s == 0

/-- Transaction::hasZeroSignature: a signature is attached and both of
its scalars are zero. -/
def Transaction.hasZeroSignature (t : Transaction) : Bool :=
  match t.m_vrs with
  | none => false
  | some sig => Transaction.isZeroSignature sig.r sig.s

/-- Transaction::setImportTime. -/
def Transaction.setImportTime (t : Transaction) (time : u256) : Transaction :=
  { t with m_importTime := time }

/-- Transaction::forceSender. -/
def Transaction.forceSender (t : Transaction) (a : Address) : Transaction :=
  { t with m_sender := a }

/-- The header constant c_fieldCountRC1WithOutSig = 7. -/
def c_fieldCountRC1WithOutSig : Nat := 7

/-- The header constant c_fieldCountRC2WithOutSig = 10. -/
def c_fieldCountRC2WithOutSig : Nat := 10

/-- The header constant c_sigCount = 3. -/
def c_sigCount : Nat := 3

/-- Big-endian base-256 digits of a number, padded to the given width;
used to render a fixed-size address as the byte string the codec
writes. -/
def natToBytesBE : Nat → Nat → Bytes
  | 0, _ => []
  | k + 1, a => natToBytesBE k (a / 256) ++ [a % 256]

/-- Reads a big-endian byte string back as a number. -/
def bytesToNat (b : Bytes) : Nat :=
  b.foldl (fun acc x => acc * 256 + x) 0

/-- The 20-byte wire form of an address. -/
def addrBytes (a : Address) : Bytes :=
  natToBytesBE 20 a

/-- Modelled from the spec: the destination field of the ordered field
list is the 20-byte receive address for a MessageCall and the empty byte
string otherwise (destination is omitted or empty for
ContractCreation). -/
def destField (t : Transaction) : Bytes :=
  if t.m_type = TxType.MessageCall then addrBytes t.m_receiveAddress else []

/-- Modelled from the spec: the v2 ("RC2") unsigned ordered field list of
ten entries — the seven v1 entries followed by chain id, group id and
extra data.  The spec names six of the seven v1 entries (nonce, gas
price, gas limit, destination-or-empty, value, payload) and leaves the
seventh unnamed; it is taken to be the block limit, the remaining
wire-relevant field of the data model (import time is explicitly not
part of the signed payload). -/
def Transaction.unsignedFields (t : Transaction) : List FieldVal :=
  [FieldVal.nat t.m_nonce, FieldVal.nat t.m_gasPrice, FieldVal.nat t.m_gas,
   FieldVal.bs (destField t), FieldVal.nat t.m_value, FieldVal.bs t.m_data,
   FieldVal.nat t.m_blockLimit, FieldVal.nat t.m_chainId,
   FieldVal.nat t.m_groupId, FieldVal.bs t.m_extraData]

/-- The three trailing signature fields v, r, s appended by a signed
encoding. -/
def sigFields (s : Signature) : List FieldVal :=
  [FieldVal.nat s.v, FieldVal.nat s.r, FieldVal.nat s.s]

/-- Modelled from the spec: Transaction::encodeRC2, whose body is not
part of this excerpt.  The signed encoding appends the three signature
fields and is an error when no signature is present
(EncodeWithoutSignature); the unsigned encoding omits them regardless of
whether a signature exists. -/
def Transaction.encodeRC2 (t : Transaction) (sig : IncludeSignature) :
    Except TxError (List FieldVal) :=
  match sig with
  | IncludeSignature.WithoutSignature => Except.ok t.unsignedFields
  | IncludeSignature.WithSignature =>
    match t.m_vrs with
    | none => Except.error TxError.EncodeWithoutSignature
    | some s => Except.ok (t.unsignedFields ++ sigFields s)

/-- Modelled from the spec: Transaction::encode, whose body is not part
of this excerpt.  The spec requires the v2 layout whenever chain id,
group id or extra data are non-default and merely permits v1 otherwise;
this model always emits the v2 layout, one of the behaviours the spec
allows. -/
def Transaction.encode (t : Transaction) (sig : IncludeSignature) :
    Except TxError (List FieldVal) :=
  t.encodeRC2 sig

/-- Modelled from the spec: parsing of the destination-or-empty field —
the empty byte string marks a contract creation, a 20-byte string a
message call with that address, and any other shape is malformed. -/
def parseDest (b : Bytes) : Option (TxType × Address) :=
  if b = [] then some (TxType.ContractCreation, 0)
  else if b.length = 20 then some (TxType.MessageCall, bytesToNat b)
  else none

/-- Modelled from the spec: a freshly decoded transaction — the wire
fields are populated and every member the wire does not carry keeps its
default value. -/
def buildDecoded (ty : TxType) (addr : Address)
    (nonce gasPrice gas blockLimit value : u256) (data : Bytes)
    (chainId groupId : u256) (extra : Bytes) : Transaction :=
  { Transaction.mkNull with
    m_type := ty
    m_receiveAddress := addr
    m_nonce := nonce
    m_gasPrice := gasPrice
    m_gas := gas
    m_blockLimit := blockLimit
    m_value := value
    m_data := data
    m_chainId := chainId
    m_groupId := groupId
    m_extraData := extra }

/-- Modelled from the spec: the check performed on a signed decode —
under Everything the sender is recovered from the unsigned-encoding
digest and the signature, failing (RecoveryFailure) when recovery fails
and caching the recovered sender; under None and Cheap no recovery is
performed.  The cryptographic digest and recovery primitives are
external collaborators and are passed in as opaque functions. -/
def attachDecodedSig (digest : List FieldVal → Digest)
    (recover : Digest → Signature → Option Address)
    (chk : CheckTransaction) (utx : Transaction) (s : Signature) :
    Except TxError Transaction :=
  if chk = CheckTransaction.Everything then
    match recover (digest utx.unsignedFields) s with
    | some a => Except.ok { utx with m_vrs := some s, m_sender := a }
    | none => Except.error TxError.RecoveryFailure
  else
    Except.ok { utx with m_vrs := some s }

/-- Modelled from the spec: Transaction::decodeRC2, whose body is not
part of this excerpt.  Accepts the ten-entry unsigned v2 field list or
the thirteen-entry signed one; any field of the wrong shape, a malformed
destination field, or any other field count is a DecodeError. -/
def decodeRC2 (digest : List FieldVal → Digest)
    (recover : Digest → Signature → Option Address)
    (chk : CheckTransaction) (fields : List FieldVal) :
    Except TxError Transaction :=
  match fields with
  | [FieldVal.nat nonce, FieldVal.nat gasPrice, FieldVal.nat gas,
     FieldVal.bs dest, FieldVal.nat value, FieldVal.bs data,
     FieldVal.nat blockLimit, FieldVal.nat chainId, FieldVal.nat groupId,
     FieldVal.bs extra] =>
    match parseDest dest with
    | none => Except.error TxError.DecodeError
    | some (ty, addr) =>
      Except.ok (buildDecoded ty addr nonce gasPrice gas blockLimit value data
        chainId groupId extra)
  | [FieldVal.nat nonce, FieldVal.nat gasPrice, FieldVal.nat gas,
     FieldVal.bs dest, FieldVal.nat value, FieldVal.bs data,
     FieldVal.nat blockLimit, FieldVal.nat chainId, FieldVal.nat groupId,
     FieldVal.bs extra, FieldVal.nat v, FieldVal.nat r, FieldVal.nat s] =>
    match parseDest dest with
    | none => Except.error TxError.DecodeError
    | some (ty, addr) =>
      attachDecodedSig digest recover chk
        (buildDecoded ty addr nonce gasPrice gas blockLimit value data
          chainId groupId extra) ⟨v, r, s⟩
  | _ => Except.error TxError.DecodeError

/-- Modelled from the spec: Transaction::decodeRC1, whose body is not
part of this excerpt.  Accepts the seven-entry unsigned v1 field list or
the ten-entry signed one; the v2-only members (chain id, group id, extra
data) keep their default values. -/
def decodeRC1 (digest : List FieldVal → Digest)
    (recover : Digest → Signature → Option Address)
    (chk : CheckTransaction) (fields : List FieldVal) :
    Except TxError Transaction :=
  match fields with
  | [FieldVal.nat nonce, FieldVal.nat gasPrice, FieldVal.nat gas,
     FieldVal.bs dest, FieldVal.nat value, FieldVal.bs data,
     FieldVal.nat blockLimit] =>
    match parseDest dest with
    | none => Except.error TxError.DecodeError
    | some (ty, addr) =>
      Except.ok (buildDecoded ty addr nonce gasPrice gas blockLimit value data
        0 0 [])
  | [FieldVal.nat nonce, FieldVal.nat gasPrice, FieldVal.nat gas,
     FieldVal.bs dest, FieldVal.nat value, FieldVal.bs data,
     FieldVal.nat blockLimit, FieldVal.nat v, FieldVal.nat r, FieldVal.nat s] =>
    match parseDest dest with
    | none => Except.error TxError.DecodeError
    | some (ty, addr) =>
      attachDecodedSig digest recover chk
        (buildDecoded ty addr nonce gasPrice gas blockLimit value data
          0 0 []) ⟨v, r, s⟩
  | _ => Except.error TxError.DecodeError

/-- Modelled from the spec: Transaction::decode, whose body is not part
of this excerpt.  The version is sniffed purely from the outer field
count: exactly 7 fields take the v1 path, exactly 13 the v2 path, and
the overlapping count 10 (v1 signed or v2 unsigned) is resolved by a
secondary discriminator on the shape of the trailing fields, which the
spec leaves to the implementer and which is therefore passed in as an
opaque predicate; any other count is a DecodeError. -/
def decode (digest : List FieldVal → Digest)
    (recover : Digest → Signature → Option Address)
    (disc : List FieldVal → Bool)
    (chk : CheckTransaction) (fields : List FieldVal) :
    Except TxError Transaction :=
  if fields.length = c_fieldCountRC1WithOutSig then
    decodeRC1 digest recover chk fields
  else if fields.length = c_fieldCountRC1WithOutSig + c_sigCount then
    (if disc fields then decodeRC1 digest recover chk fields
     else decodeRC2 digest recover chk fields)
  else if fields.length = c_fieldCountRC2WithOutSig + c_sigCount then
    decodeRC2 digest recover chk fields
  else
    Except.error TxError.DecodeError

/-- Modelled from the spec: Transaction::hash, whose body is not part of
this excerpt — the digest of the encoding with the requested signature
inclusion; the signed digest is served from the cache when one is
present (a non-zero m_hashWith).  The model returns the digest value;
the write of the freshly computed signed digest into the cache is a
separate state effect not needed by the claims. -/
def Transaction.hash (digest : List FieldVal → Digest) (t : Transaction)
    (sig : IncludeSignature) : Except TxError Digest :=
  if sig = IncludeSignature.WithSignature ∧ t.m_hashWith ≠ 0 then
    Except.ok t.m_hashWith
  else
    Except.map digest (t.encode sig)

/-- Modelled from the spec: Transaction::sender, whose body is not part
of this excerpt.  Returns the cached sender when one is present (the
source tests the address against zero); otherwise fails with
TransactionIsUnsigned when no signature is attached, and else recovers
the sender from the unsigned-encoding digest and the signature, failing
with RecoveryFailure when recovery fails. -/
def Transaction.sender (digest : List FieldVal → Digest)
    (recover : Digest → Signature → Option Address) (t : Transaction) :
    Except TxError Address :=
  if t.m_sender ≠ 0 then Except.ok t.m_sender
  else
    match t.m_vrs with
    | none => Except.error TxError.TransactionIsUnsigned
    | some s =>
      match recover (digest t.unsignedFields) s with
      | some a => Except.ok a
      | none => Except.error TxError.RecoveryFailure

/-- Modelled from the spec: Transaction::safeSender, whose body is not
part of this excerpt — same as sender but never fails, returning the
zero address on any failure. -/
def Transaction.safeSender (digest : List FieldVal → Digest)
    (recover : Digest → Signature → Option Address) (t : Transaction) :
    Address :=
  match t.sender digest recover with
  | Except.ok a => a
  | Except.error _ => 0

/-- Transaction::rlp, line for line from the header: when the cached RLP
buffer is non-empty it is returned as is (the include-signature argument
is not consulted); otherwise the transaction is encoded afresh with the
requested signature inclusion. -/
def Transaction.rlp (t : Transaction) (sig : IncludeSignature) :
    Except TxError (List FieldVal) :=
  if t.m_rlpBuffer ≠ [] then Except.ok t.m_rlpBuffer
  else t.encode sig

/-- Modelled from the claim wording, for comparison with the source
operator==: equality determined by kind, value and payload, with the
destination compared only when the kind is MessageCall. -/
def specClaimEq (t c : Transaction) : Bool :=
  t.m_type == c.m_type
    && (!(t.m_type == TxType.MessageCall)
        || t.m_receiveAddress == c.m_receiveAddress)
    && t.m_value == c.m_value && t.m_data == c.m_data

theorem natToBytesBE_length (k : Nat) : ∀ a, (natToBytesBE k a).length = k := by
  induction k with
  | zero => intro a; rfl
  | succ k ih => intro a; simp [natToBytesBE, ih]

theorem bytesToNat_append_one (xs : Bytes) (b : Nat) :
    bytesToNat (xs ++ [b]) = bytesToNat xs * 256 + b := by
  simp [bytesToNat, List.foldl_append]

theorem bytesToNat_natToBytesBE :
    ∀ (k a : Nat), a < 256 ^ k → bytesToNat (natToBytesBE k a) = a := by
  intro k
  induction k with
  | zero =>
    intro a ha
    have h0 : a = 0 := Nat.lt_one_iff.mp (by simpa using ha)
    subst h0; rfl
  | succ k ih =>
    intro a ha
    have h1 : a / 256 < 256 ^ k := by
      apply Nat.div_lt_of_lt_mul
      calc a < 256 ^ (k + 1) := ha
        _ = 256 * 256 ^ k := by ring
    show bytesToNat (natToBytesBE k (a / 256) ++ [a % 256]) = a
    rw [bytesToNat_append_one, ih _ h1]
    exact Nat.div_add_mod' a 256

theorem addrBytes_length (a : Address) : (addrBytes a).length = 20 :=
  natToBytesBE_length 20 a

theorem addrBytes_ne_nil (a : Address) : addrBytes a ≠ [] := by
  intro h
  have := addrBytes_length a
  rw [h] at this
  simp at this

theorem parseDest_addrBytes (a : Address) (h : a < 256 ^ 20) :
    parseDest (addrBytes a) = some (TxType.MessageCall, a) := by
  have h1 : natToBytesBE 20 a ≠ [] := addrBytes_ne_nil a
  have h2 : List.length (natToBytesBE 20 a) = 20 := addrBytes_length a
  simp [parseDest, addrBytes, h1, h2, bytesToNat_natToBytesBE 20 a h]

/-- C1 counterexample: two transactions of kind NullTransaction (reached
from the null constructor through setReceiveAddress) share kind, value
and payload and differ only in the destination; the claim, which lets
the destination matter only for MessageCall, declares them equal, but
operator== compares the destination for every kind other than
ContractCreation and declares them unequal. -/
theorem C1_counterexample_null_dest :
    specClaimEq (Transaction.mkNull.setReceiveAddress 1)
        (Transaction.mkNull.setReceiveAddress 2) = true
      ∧ Transaction.beq (Transaction.mkNull.setReceiveAddress 1)
        (Transaction.mkNull.setReceiveAddress 2) = false := by
  decide

/-- C1 (amended): operator== holds iff the two transactions have the
same kind, the same value, the same payload, and — whenever the kind is
not ContractCreation, so for MessageCall and also for NullTransaction —
the same destination address; nonce, gas price, gas limit, block limit,
chain id, group id, extra data and signature never affect equality, two
transactions differing only in nonce compare equal, and two differing in
payload compare unequal. -/
theorem C1_equality_amended (t c : Transaction) (n gp g bl ci gi : u256)
    (ed : Bytes) (sg : Option Signature) (p : Bytes) :
    (Transaction.beq t c = true ↔
      (t.m_type = c.m_type
        ∧ (t.m_type = TxType.ContractCreation
            ∨ t.m_receiveAddress = c.m_receiveAddress)
        ∧ t.m_value = c.m_value ∧ t.m_data = c.m_data))
    ∧ Transaction.beq t
        { t with m_nonce := n, m_gasPrice := gp, m_gas := g,
                 m_blockLimit := bl, m_chainId := ci, m_groupId := gi,
                 m_extraData := ed, m_vrs := sg } = true
    ∧ (p ≠ t.m_data → Transaction.beq t { t with m_data := p } = false) := by
  refine ⟨?_, ?_, ?_⟩
  · simp [Transaction.beq, Bool.and_eq_true, Bool.or_eq_true, and_assoc]
  · simp [Transaction.beq]
  · intro hp
    simp [Transaction.beq, Ne.symm hp]

/-- C1 witness for the amended statement at a concrete input: a
message-call transaction stays equal to itself after changing every
equality-irrelevant field, and changing the payload breaks equality. -/
theorem C1_amended_witness :
    Transaction.beq (Transaction.mkMessageCall 100 1 21000 170 [7] 0 1 1)
        { Transaction.mkMessageCall 100 1 21000 170 [7] 0 1 1 with
            m_nonce := 9, m_gasPrice := 2, m_gas := 3, m_blockLimit := 4,
            m_chainId := 5, m_groupId := 6, m_extraData := [1],
            m_vrs := some ⟨27, 1, 2⟩ } = true
      ∧ Transaction.beq (Transaction.mkMessageCall 100 1 21000 170 [7] 0 1 1)
        { Transaction.mkMessageCall 100 1 21000 170 [7] 0 1 1 with
            m_data := [8] } = false :=
  ⟨(C1_equality_amended (Transaction.mkMessageCall 100 1 21000 170 [7] 0 1 1)
      (Transaction.mkMessageCall 100 1 21000 170 [7] 0 1 1)
      9 2 3 4 5 6 [1] (some ⟨27, 1, 2⟩) [8]).2.1,
   (C1_equality_amended (Transaction.mkMessageCall 100 1 21000 170 [7] 0 1 1)
      (Transaction.mkMessageCall 100 1 21000 170 [7] 0 1 1)
      9 2 3 4 5 6 [1] (some ⟨27, 1, 2⟩) [8]).2.2 (by decide)⟩

/-- C2: setNonce and setBlockLimit, with any argument, clear the
signature, reset the cached sender, zero the cached hash and empty the
cached encoded buffer; afterwards hasSignature is false and sender fails
with TransactionIsUnsigned. -/
theorem C2_nonce_blockLimit_invalidate (t : Transaction) (n b : u256)
    (digest : List FieldVal → Digest)
    (recover : Digest → Signature → Option Address) :
    ((t.setNonce n).m_vrs = none ∧ (t.setNonce n).m_sender = 0
      ∧ (t.setNonce n).m_hashWith = 0 ∧ (t.setNonce n).m_rlpBuffer = []
      ∧ (t.setNonce n).hasSignature = false
      ∧ (t.setNonce n).sender digest recover
          = Except.error TxError.TransactionIsUnsigned)
    ∧ ((t.setBlockLimit b).m_vrs = none ∧ (t.setBlockLimit b).m_sender = 0
      ∧ (t.setBlockLimit b).m_hashWith = 0 ∧ (t.setBlockLimit b).m_rlpBuffer = []
      ∧ (t.setBlockLimit b).hasSignature = false
      ∧ (t.setBlockLimit b).sender digest recover
          = Except.error TxError.TransactionIsUnsigned) := by
  simp [Transaction.setNonce, Transaction.setBlockLimit,
    Transaction.clearSignature, Transaction.hasSignature, Transaction.sender]

/-- C3: setReceiveAddress, setData, setChainId, setGroupId and setType
zero the cached hash and empty the cached encoded buffer but leave the
stored signature object, and hence hasSignature, unchanged. -/
theorem C3_setters_leave_signature (t : Transaction) (addr : Address)
    (d : Bytes) (ci gi : u256) (ty : TxType) :
    ((t.setReceiveAddress addr).m_hashWith = 0
      ∧ (t.setReceiveAddress addr).m_rlpBuffer = []
      ∧ (t.setReceiveAddress addr).m_vrs = t.m_vrs
      ∧ (t.setReceiveAddress addr).hasSignature = t.hasSignature)
    ∧ ((t.setData d).m_hashWith = 0 ∧ (t.setData d).m_rlpBuffer = []
      ∧ (t.setData d).m_vrs = t.m_vrs
      ∧ (t.setData d).hasSignature = t.hasSignature)
    ∧ ((t.setChainId ci).m_hashWith = 0 ∧ (t.setChainId ci).m_rlpBuffer = []
      ∧ (t.setChainId ci).m_vrs = t.m_vrs
      ∧ (t.setChainId ci).hasSignature = t.hasSignature)
    ∧ ((t.setGroupId gi).m_hashWith = 0 ∧ (t.setGroupId gi).m_rlpBuffer = []
      ∧ (t.setGroupId gi).m_vrs = t.m_vrs
      ∧ (t.setGroupId gi).hasSignature = t.hasSignature)
    ∧ ((t.setType ty).m_hashWith = 0 ∧ (t.setType ty).m_rlpBuffer = []
      ∧ (t.setType ty).m_vrs = t.m_vrs
      ∧ (t.setType ty).hasSignature = t.hasSignature) := by
  simp [Transaction.setReceiveAddress, Transaction.setData,
    Transaction.setChainId, Transaction.setGroupId, Transaction.setType,
    Transaction.hasSignature]

/-- C4: updateSignature stores the given signature, zeroes the cached
hash, resets the cached sender to the null address and empties the
cached encoded buffer, while every other field is unchanged. -/
theorem C4_updateSignature_frame (t : Transaction) (sig : Option Signature) :
    (t.updateSignature sig).m_hashWith = 0
    ∧ (t.updateSignature sig).m_sender = 0
    ∧ (t.updateSignature sig).m_rlpBuffer = []
    ∧ (t.updateSignature sig).m_vrs = sig
    ∧ (t.updateSignature sig).m_type = t.m_type
    ∧ (t.updateSignature sig).m_nonce = t.m_nonce
    ∧ (t.updateSignature sig).m_value = t.m_value
    ∧ (t.updateSignature sig).m_receiveAddress = t.m_receiveAddress
    ∧ (t.updateSignature sig).m_gasPrice = t.m_gasPrice
    ∧ (t.updateSignature sig).m_gas = t.m_gas
    ∧ (t.updateSignature sig).m_data = t.m_data
    ∧ (t.updateSignature sig).m_blockLimit = t.m_blockLimit
    ∧ (t.updateSignature sig).m_importTime = t.m_importTime
    ∧ (t.updateSignature sig).m_chainId = t.m_chainId
    ∧ (t.updateSignature sig).m_groupId = t.m_groupId
    ∧ (t.updateSignature sig).m_extraData = t.m_extraData := by
  simp [Transaction.updateSignature]

/-- C8: after appendNodeContainsTransaction the node is reported as
containing the transaction; inserting an already-present node leaves the
marker unchanged; isKnownBySomeone is true exactly when the set is
non-empty, and is false on a freshly constructed marker and right after
clear, which empties the set. -/
theorem C8_marker_ops (m : NodeTransactionMarker) (p : PeerId) :
    (m.appendNodeContainsTransaction p).isTheNodeContainsTransaction p = true
    ∧ (m.isTheNodeContainsTransaction p = true
        → m.appendNodeContainsTransaction p = m)
    ∧ (m.isKnownBySomeone = true
        ↔ m.m_nodeListWithTheTransaction ≠ (∅ : Finset PeerId))
    ∧ NodeTransactionMarker.init.isKnownBySomeone = false
    ∧ m.clear.isKnownBySomeone = false
    ∧ m.clear.m_nodeListWithTheTransaction = (∅ : Finset PeerId) := by
  refine ⟨?_, ?_, ?_, ?_, ?_, ?_⟩
  · simp [NodeTransactionMarker.appendNodeContainsTransaction,
      NodeTransactionMarker.isTheNodeContainsTransaction]
  · intro h
    simp [NodeTransactionMarker.isTheNodeContainsTransaction] at h
    simp [NodeTransactionMarker.appendNodeContainsTransaction,
      Finset.insert_eq_self.mpr h]
  · simp [NodeTransactionMarker.isKnownBySomeone]
  · simp [NodeTransactionMarker.isKnownBySomeone, NodeTransactionMarker.init]
  · simp [NodeTransactionMarker.isKnownBySomeone, NodeTransactionMarker.clear]
  · simp [NodeTransactionMarker.clear]

/-- C8 witness at a concrete input: inserting node 3 makes it known, a
second insertion of node 3 is a no-op, and a cleared marker knows
nobody. -/
theorem C8_marker_witness :
    (NodeTransactionMarker.init.appendNodeContainsTransaction 3).isTheNodeContainsTransaction 3 = true
    ∧ ((⟨{3}⟩ : NodeTransactionMarker).appendNodeContainsTransaction 3
        = (⟨{3}⟩ : NodeTransactionMarker))
    ∧ (⟨{3}⟩ : NodeTransactionMarker).clear.isKnownBySomeone = false :=
  ⟨(C8_marker_ops NodeTransactionMarker.init 3).1,
   (C8_marker_ops ⟨{3}⟩ 3).2.1 (by decide),
   (C8_marker_ops ⟨{3}⟩ 3).2.2.2.2.1⟩

/-- C9: hasSignature holds iff a signature is attached, and
hasZeroSignature holds iff a signature is attached and both of its
scalars are zero; on an unsigned transaction hasZeroSignature is
false. -/
theorem C9_signature_predicates (t : Transaction) :
    (t.hasSignature = true ↔ ∃ s, t.m_vrs = some s)
    ∧ (t.hasZeroSignature = true
        ↔ ∃ s, t.m_vrs = some s ∧ s.r = 0 ∧ s.s = 0)
    ∧ (t.hasSignature = false → t.hasZeroSignature = false) := by
  refine ⟨?_, ?_, ?_⟩ <;>
    cases h : t.m_vrs <;>
      simp [Transaction.hasSignature, Transaction.hasZeroSignature,
        Transaction.isZeroSignature, h]

/-- C9 witness at concrete inputs: the null transaction is unsigned and
has no zero signature; a transaction carrying the zero signature
satisfies hasZeroSignature. -/
theorem C9_witness :
    Transaction.hasZeroSignature Transaction.mkNull = false
    ∧ Transaction.hasZeroSignature
        (Transaction.mkNull.updateSignature (some ⟨0, 0, 0⟩)) = true :=
  ⟨(C9_signature_predicates Transaction.mkNull).2.2 (by decide),
   ((C9_signature_predicates
      (Transaction.mkNull.updateSignature (some ⟨0, 0, 0⟩))).2.1).mpr
     ⟨⟨0, 0, 0⟩, by decide⟩⟩

/-- C10: when the cached RLP buffer is non-empty, rlp returns it
unchanged whatever the include-signature argument says; in particular
the result of rlp WithoutSignature coincides with the cached (possibly
signed) encoding. -/
theorem C10_rlp_serves_cache (t : Transaction) (sig : IncludeSignature)
    (h : t.m_rlpBuffer ≠ []) :
    t.rlp sig = Except.ok t.m_rlpBuffer
    ∧ t.rlp sig = t.rlp IncludeSignature.WithSignature := by
  constructor <;> simp [Transaction.rlp, h]

/-- C10 witness: a transaction whose buffer caches a field list returns
that list even for an unsigned-encoding request. -/
theorem C10_witness :
    Transaction.rlp { Transaction.mkNull with m_rlpBuffer := [FieldVal.nat 5] }
        IncludeSignature.WithoutSignature = Except.ok [FieldVal.nat 5] :=
  (C10_rlp_serves_cache { Transaction.mkNull with m_rlpBuffer := [FieldVal.nat 5] }
    IncludeSignature.WithoutSignature (by decide)).1

/-- C5: decode sniffs the version purely from the outer field count —
exactly 7 fields take the decodeRC1 path, exactly 13 the decodeRC2 path,
exactly 10 one of the two as resolved by the secondary discriminator on
the trailing fields, and any other count yields the DecodeError result
with no transaction produced. -/
theorem C5_version_sniffing (digest : List FieldVal → Digest)
    (recover : Digest → Signature → Option Address)
    (disc : List FieldVal → Bool) (chk : CheckTransaction)
    (fields : List FieldVal) :
    (fields.length ≠ 7 → fields.length ≠ 10 → fields.length ≠ 13 →
      decode digest recover disc chk fields = Except.error TxError.DecodeError)
    ∧ (fields.length = 7 →
      decode digest recover disc chk fields = decodeRC1 digest recover chk fields)
    ∧ (fields.length = 13 →
      decode digest recover disc chk fields = decodeRC2 digest recover chk fields)
    ∧ (fields.length = 10 →
      decode digest recover disc chk fields = decodeRC1 digest recover chk fields
      ∨ decode digest recover disc chk fields = decodeRC2 digest recover chk fields) := by
  refine ⟨?_, ?_, ?_, ?_⟩
  · intro h7 h10 h13
    simp [decode, c_fieldCountRC1WithOutSig, c_fieldCountRC2WithOutSig,
      c_sigCount, h7, h10, h13]
  · intro h7
    simp [decode, c_fieldCountRC1WithOutSig, h7]
  · intro h13
    simp [decode, c_fieldCountRC1WithOutSig, c_fieldCountRC2WithOutSig,
      c_sigCount, h13]
  · intro h10
    simp only [decode, c_fieldCountRC1WithOutSig, c_fieldCountRC2WithOutSig,
      c_sigCount, h10]
    cases hd : disc fields <;> simp [hd]

/-- C5 witness at concrete inputs: an empty field list is a DecodeError,
a 7-entry list is dispatched to decodeRC1, and a 13-entry list to
decodeRC2. -/
theorem C5_witness :
    decode (fun _ => 0) (fun _ _ => some 7) (fun _ => true)
        CheckTransaction.Cheap [] = Except.error TxError.DecodeError
    ∧ decode (fun _ => 0) (fun _ _ => some 7) (fun _ => true)
        CheckTransaction.Cheap
        [FieldVal.nat 0, FieldVal.nat 0, FieldVal.nat 0, FieldVal.bs [],
         FieldVal.nat 0, FieldVal.bs [], FieldVal.nat 0]
      = decodeRC1 (fun _ => 0) (fun _ _ => some 7) CheckTransaction.Cheap
        [FieldVal.nat 0, FieldVal.nat 0, FieldVal.nat 0, FieldVal.bs [],
         FieldVal.nat 0, FieldVal.bs [], FieldVal.nat 0]
    ∧ decode (fun _ => 0) (fun _ _ => some 7) (fun _ => true)
        CheckTransaction.Cheap
        [FieldVal.nat 0, FieldVal.nat 0, FieldVal.nat 0, FieldVal.bs [],
         FieldVal.nat 0, FieldVal.bs [], FieldVal.nat 0, FieldVal.nat 0,
         FieldVal.nat 0, FieldVal.bs [], FieldVal.nat 1, FieldVal.nat 1,
         FieldVal.nat 1]
      = decodeRC2 (fun _ => 0) (fun _ _ => some 7) CheckTransaction.Cheap
        [FieldVal.nat 0, FieldVal.nat 0, FieldVal.nat 0, FieldVal.bs [],
         FieldVal.nat 0, FieldVal.bs [], FieldVal.nat 0, FieldVal.nat 0,
         FieldVal.nat 0, FieldVal.bs [], FieldVal.nat 1, FieldVal.nat 1,
         FieldVal.nat 1] :=
  ⟨(C5_version_sniffing (fun _ => 0) (fun _ _ => some 7) (fun _ => true)
      CheckTransaction.Cheap []).1 (by decide) (by decide) (by decide),
   (C5_version_sniffing (fun _ => 0) (fun _ _ => some 7) (fun _ => true)
      CheckTransaction.Cheap _).2.1 (by decide),
   (C5_version_sniffing (fun _ => 0) (fun _ _ => some 7) (fun _ => true)
      CheckTransaction.Cheap _).2.2.1 (by decide)⟩

/-- C7: safeSender is a total function that agrees with sender whenever
sender succeeds and returns the zero address whenever sender fails, and
sender can only fail with TransactionIsUnsigned or RecoveryFailure. -/
theorem C7_safeSender_never_fails (digest : List FieldVal → Digest)
    (recover : Digest → Signature → Option Address) (t : Transaction) :
    (∀ e, t.sender digest recover = Except.error e
      → t.safeSender digest recover = 0)
    ∧ (∀ a, t.sender digest recover = Except.ok a
      → t.safeSender digest recover = a)
    ∧ (∀ e, t.sender digest recover = Except.error e
      → e = TxError.TransactionIsUnsigned ∨ e = TxError.RecoveryFailure) := by
  refine ⟨?_, ?_, ?_⟩
  · intro e h
    simp [Transaction.safeSender, h]
  · intro a h
    simp [Transaction.safeSender, h]
  · intro e h
    simp only [Transaction.sender] at h
    split at h
    · simp at h
    · split at h
      · simp at h
        left
        exact h.symm
      · split at h
        · simp at h
        · simp at h
          right
          exact h.symm

/-- C7 witness at a concrete input: on an unsigned transaction sender
fails and safeSender returns the zero address. -/
theorem C7_witness :
    Transaction.safeSender (fun _ => 0) (fun _ _ => none)
      Transaction.mkNull = 0 :=
  (C7_safeSender_never_fails (fun _ => 0) (fun _ _ => none)
    Transaction.mkNull).1 TxError.TransactionIsUnsigned (by simp
      [Transaction.sender, Transaction.mkNull])

theorem hash_of_zero_cache (digest : List FieldVal → Digest)
    (t : Transaction) (sig : IncludeSignature) (h : t.m_hashWith = 0) :
    t.hash digest sig = Except.map digest (t.encode sig) := by
  simp [Transaction.hash, h]

theorem hash_of_cached (digest : List FieldVal → Digest)
    (t : Transaction) (h : t.m_hashWith ≠ 0) :
    t.hash digest IncludeSignature.WithSignature = Except.ok t.m_hashWith := by
  simp [Transaction.hash, h]

/-- C6: decoding the signed encoding of a valid (non-null, signed,
well-formed address) transaction under the Everything check level, with
the external recovery succeeding and any cached signed hash being the
digest of that encoding, yields a transaction equal to the original
under operator== and with the same hash value. -/
theorem C6_encode_decode_roundtrip (digest : List FieldVal → Digest)
    (recover : Digest → Signature → Option Address)
    (disc : List FieldVal → Bool)
    (t : Transaction) (s : Signature) (a : Address) (fl : List FieldVal)
    (hty : t.m_type ≠ TxType.NullTransaction)
    (hsig : t.m_vrs = some s)
    (haddr : t.m_receiveAddress < 256 ^ 20)
    (henc : t.encode IncludeSignature.WithSignature = Except.ok fl)
    (hcache : t.m_hashWith = 0 ∨ t.m_hashWith = digest fl)
    (hrec : recover (digest t.unsignedFields) s = some a) :
    ∃ t2, decode digest recover disc CheckTransaction.Everything fl = Except.ok t2
      ∧ Transaction.beq t2 t = true
      ∧ t2.hash digest IncludeSignature.WithSignature
        = t.hash digest IncludeSignature.WithSignature := by
  obtain ⟨sv, sr, ss⟩ := s
  have hfl : fl = t.unsignedFields ++ sigFields ⟨sv, sr, ss⟩ := by
    simp only [Transaction.encode, Transaction.encodeRC2, hsig,
      Except.ok.injEq] at henc
    exact henc.symm
  subst hfl
  have hlen : (t.unsignedFields ++ sigFields ⟨sv, sr, ss⟩).length = 13 := by
    simp [Transaction.unsignedFields, sigFields]
  have hdec : decode digest recover disc CheckTransaction.Everything
      (t.unsignedFields ++ sigFields ⟨sv, sr, ss⟩)
      = decodeRC2 digest recover CheckTransaction.Everything
        (t.unsignedFields ++ sigFields ⟨sv, sr, ss⟩) := by
    simp [decode, c_fieldCountRC1WithOutSig, c_fieldCountRC2WithOutSig,
      c_sigCount, hlen]
  have hthash : t.hash digest IncludeSignature.WithSignature
      = Except.ok (digest (t.unsignedFields ++ sigFields ⟨sv, sr, ss⟩)) := by
    by_cases hz : t.m_hashWith = 0
    · rw [hash_of_zero_cache digest t _ hz, henc]
      rfl
    · rcases hcache with h0 | hc
      · exact absurd h0 hz
      · rw [hash_of_cached digest t hz, hc]
  cases hT : t.m_type with
  | NullTransaction => exact absurd hT hty
  | ContractCreation =>
    have hdf : destField t = [] := by simp [destField, hT]
    have hufx : (buildDecoded TxType.ContractCreation 0 t.m_nonce t.m_gasPrice
        t.m_gas t.m_blockLimit t.m_value t.m_data t.m_chainId t.m_groupId
        t.m_extraData).unsignedFields = t.unsignedFields := by
      simp [Transaction.unsignedFields, buildDecoded, Transaction.mkNull,
        destField, hdf, hT]
    have huf : t.unsignedFields ++ sigFields ⟨sv, sr, ss⟩
        = [FieldVal.nat t.m_nonce, FieldVal.nat t.m_gasPrice,
           FieldVal.nat t.m_gas, FieldVal.bs [], FieldVal.nat t.m_value,
           FieldVal.bs t.m_data, FieldVal.nat t.m_blockLimit,
           FieldVal.nat t.m_chainId, FieldVal.nat t.m_groupId,
           FieldVal.bs t.m_extraData, FieldVal.nat sv, FieldVal.nat sr,
           FieldVal.nat ss] := by
      simp [Transaction.unsignedFields, sigFields, hdf]
    have hval : decodeRC2 digest recover CheckTransaction.Everything
        (t.unsignedFields ++ sigFields ⟨sv, sr, ss⟩)
        = Except.ok { buildDecoded TxType.ContractCreation 0 t.m_nonce
            t.m_gasPrice t.m_gas t.m_blockLimit t.m_value t.m_data t.m_chainId
            t.m_groupId t.m_extraData with
              m_vrs := some ⟨sv, sr, ss⟩, m_sender := a } := by
      rw [huf]
      simp [decodeRC2, parseDest, attachDecodedSig, hufx, hrec]
    refine ⟨_, hdec.trans hval, ?_, ?_⟩
    · simp [Transaction.beq, buildDecoded, Transaction.mkNull, hT]
    · have henc2 : Transaction.encode { buildDecoded TxType.ContractCreation 0
          t.m_nonce t.m_gasPrice t.m_gas t.m_blockLimit t.m_value t.m_data
          t.m_chainId t.m_groupId t.m_extraData with
            m_vrs := some ⟨sv, sr, ss⟩, m_sender := a }
          IncludeSignature.WithSignature
          = Except.ok (t.unsignedFields ++ sigFields ⟨sv, sr, ss⟩) := by
        simp only [Transaction.encode, Transaction.encodeRC2]
        rw [huf]
        simp [Transaction.unsignedFields, sigFields, buildDecoded,
          Transaction.mkNull, destField]
      rw [hthash, hash_of_zero_cache digest _ _
        (by simp [buildDecoded, Transaction.mkNull]), henc2]
      rfl
  | MessageCall =>
    have hdf : destField t = addrBytes t.m_receiveAddress := by
      simp [destField, hT]
    have hufx : (buildDecoded TxType.MessageCall t.m_receiveAddress t.m_nonce
        t.m_gasPrice t.m_gas t.m_blockLimit t.m_value t.m_data t.m_chainId
        t.m_groupId t.m_extraData).unsignedFields = t.unsignedFields := by
      simp [Transaction.unsignedFields, buildDecoded, Transaction.mkNull,
        destField, hdf, hT]
    have huf : t.unsignedFields ++ sigFields ⟨sv, sr, ss⟩
        = [FieldVal.nat t.m_nonce, FieldVal.nat t.m_gasPrice,
           FieldVal.nat t.m_gas, FieldVal.bs (addrBytes t.m_receiveAddress),
           FieldVal.nat t.m_value, FieldVal.bs t.m_data,
           FieldVal.nat t.m_blockLimit, FieldVal.nat t.m_chainId,
           FieldVal.nat t.m_groupId, FieldVal.bs t.m_extraData,
           FieldVal.nat sv, FieldVal.nat sr, FieldVal.nat ss] := by
      simp [Transaction.unsignedFields, sigFields, hdf]
    have hval : decodeRC2 digest recover CheckTransaction.Everything
        (t.unsignedFields ++ sigFields ⟨sv, sr, ss⟩)
        = Except.ok { buildDecoded TxType.MessageCall t.m_receiveAddress
            t.m_nonce t.m_gasPrice t.m_gas t.m_blockLimit t.m_value t.m_data
            t.m_chainId t.m_groupId t.m_extraData with
              m_vrs := some ⟨sv, sr, ss⟩, m_sender := a } := by
      rw [huf]
      simp [decodeRC2, parseDest_addrBytes t.m_receiveAddress haddr,
        attachDecodedSig, hufx, hrec]
    refine ⟨_, hdec.trans hval, ?_, ?_⟩
    · simp [Transaction.beq, buildDecoded, Transaction.mkNull, hT]
    · have henc2 : Transaction.encode { buildDecoded TxType.MessageCall
          t.m_receiveAddress t.m_nonce t.m_gasPrice t.m_gas t.m_blockLimit
          t.m_value t.m_data t.m_chainId t.m_groupId t.m_extraData with
            m_vrs := some ⟨sv, sr, ss⟩, m_sender := a }
          IncludeSignature.WithSignature
          = Except.ok (t.unsignedFields ++ sigFields ⟨sv, sr, ss⟩) := by
        simp only [Transaction.encode, Transaction.encodeRC2]
        rw [huf]
        simp [Transaction.unsignedFields, sigFields, buildDecoded,
          Transaction.mkNull, destField]
      rw [hthash, hash_of_zero_cache digest _ _
        (by simp [buildDecoded, Transaction.mkNull]), henc2]
      rfl

/-- Concrete signed message-call transaction used to witness the
round-trip claim. -/
def tC6 : Transaction :=
  (Transaction.mkMessageCall 100 1 21000 170 [] 0 1 1).updateSignature
    (some ⟨27, 1, 2⟩)

/-- The signed field-list encoding of the witness transaction. -/
def flC6 : List FieldVal :=
  tC6.unsignedFields ++ sigFields ⟨27, 1, 2⟩

/-- C6 witness at a concrete input: the signed encoding of a concrete
message-call transaction decodes, under Everything with a recovery
function that succeeds, to a transaction equal to the original with the
same hash. -/
theorem C6_witness :
    ∃ t2, decode (fun l => l.length) (fun _ _ => some 7) (fun _ => true)
        CheckTransaction.Everything flC6 = Except.ok t2
      ∧ Transaction.beq t2 tC6 = true
      ∧ Transaction.hash (fun l => l.length) t2 IncludeSignature.WithSignature
        = Transaction.hash (fun l => l.length) tC6 IncludeSignature.WithSignature :=
  C6_encode_decode_roundtrip (fun l => l.length) (fun _ _ => some 7)
    (fun _ => true) tC6 ⟨27, 1, 2⟩ 7 flC6 (by decide) rfl (by decide) rfl
    (Or.inl rfl) rfl

end FBC
